import Mathlib

/-!
# Verification of the IEEE 802.15.4 MAC frame codec

A shallow embedding of `src/mac/frame/mod.rs` of the `ieee802154` crate:
the `Frame` data model, the `secure_frame` security transform, and the
`try_write` / `try_read` codec entry points. Parts of the repository that
`mod.rs` depends on but whose sources are not available here (the header,
address and auxiliary-security-header codecs in `header.rs`,
`frame_control.rs`, `security_control.rs` and the security module) are
modelled from the design specification, with the concrete byte layouts
pinned by the unit tests that live inside `mod.rs` itself.

Machine integers are represented as `Nat` with explicit bounds; byte
buffers are `List Nat`; fallible operations return `Except` values, and
the two `panic!` calls in `secure_frame` as well as the possible
arithmetic-overflow panic in `try_read` are represented by explicit
`panicked` result constructors.
-/

set_option linter.unusedVariables false

namespace Ieee802154

/-! ## Data model (from `mod.rs` and `header.rs` usage) -/

/-- Frame type field of the frame control word (`header::FrameType`). -/
inductive FrameType
  | Beacon
  | Data
  | Acknowledgement
  | MacCommand
deriving DecidableEq

/-- Frame version field (`header::FrameVersion`): 2003, 2006 and the
current (2015 and later) revision. -/
inductive FrameVersion
  | Ieee802154_2003
  | Ieee802154_2006
  | Ieee802154
deriving DecidableEq

/-- A PAN identifier plus short (16-bit) or extended (64-bit) address.
The first component is the PAN id, the second the address proper. -/
inductive Address
  | Short : Nat → Nat → Address
  | Extended : Nat → Nat → Address
deriving DecidableEq

/-- The PAN identifier carried by an address. -/
def Address.pan : Address → Nat
  | .Short p _ => p
  | .Extended p _ => p

/-- Security level of the auxiliary security header
(`security_control::SecurityLevel`, eight values). -/
inductive SecurityLevel
  | None
  | MIC32
  | MIC64
  | MIC128
  | ENC
  | ENCMIC32
  | ENCMIC64
  | ENCMIC128
deriving DecidableEq

/-- Key identifier mode (four values, controlling a 0/1/5/9-byte key
identifier field). -/
inductive KeyIdentifierMode
  | None
  | KeyIndex
  | KeySource4
  | KeySource8
deriving DecidableEq

/-- Modelled from the spec: the key-identifier field width (in octets)
selected by the key identifier mode — 0, 1, 5 or 9 bytes. The concrete
`security_control.rs` source is not available here. -/
def keyIdLen : KeyIdentifierMode → Nat
  | .None => 0
  | .KeyIndex => 1
  | .KeySource4 => 5
  | .KeySource8 => 9

/-- The security control byte's decoded fields. -/
structure SecurityControl where
  security_level : SecurityLevel
  key_id_mode : KeyIdentifierMode
deriving DecidableEq

/-- Modelled from the spec: the auxiliary security header
(`security::AuxiliarySecurityHeader`, source not available here) —
a control byte, a 4-byte frame counter field and the key identifier
bytes whose width is governed by the key identifier mode. -/
structure AuxiliarySecurityHeader where
  control : SecurityControl
  frame_counter : Nat
  key_identifier : List Nat
deriving DecidableEq

/-- Modelled from the spec: the octet size of the auxiliary security
header as laid out on the wire — 1 control byte, 4 frame-counter bytes,
plus the key identifier field width for the header's key id mode. -/
def AuxiliarySecurityHeader.get_octet_size (a : AuxiliarySecurityHeader) : Nat :=
  1 + 4 + keyIdLen a.control.key_id_mode

/-- MAC frame header (`header::Header`), with the field set visible in
`mod.rs`. -/
structure Header where
  frame_type : FrameType
  security : Bool
  frame_pending : Bool
  ack_request : Bool
  pan_id_compress : Bool
  version : FrameVersion
  seq : Nat
  destination : Option Address
  source : Option Address
  auxiliary_security_header : Option AuxiliarySecurityHeader
deriving DecidableEq

/-- Frame content (`FrameContent`): beacon and MAC-command bodies are
decoded by external codecs, so their body types are parameters. -/
inductive FrameContent (B C : Type)
  | Beacon : B → FrameContent B C
  | Data : FrameContent B C
  | Acknowledgement : FrameContent B C
  | Command : C → FrameContent B C
deriving DecidableEq

/-- An IEEE 802.15.4 MAC frame (`Frame`): header, content, payload bytes
and the 2-byte footer. -/
structure Frame (B C : Type) where
  header : Header
  content : FrameContent B C
  payload : List Nat
  footer : Nat × Nat
deriving DecidableEq

/-- Controls whether the 2-byte footer is read/written (`FooterMode`). -/
inductive FooterMode
  | None
  | Explicit
deriving DecidableEq

/-! ## Security module (modelled from the spec where the source is
missing; the control flow of `secure_frame` is taken verbatim from
`mod.rs`) -/

/-- The security-error taxonomy (`security::SecurityError`), as used by
`secure_frame` and listed in the spec. -/
inductive SecurityError
  | FrameTooLong
  | CounterError
  | KeyFailure
  | UnavailableKey
deriving DecidableEq

/-- Modelled from the spec: the address mode passed to key lookup
(`security::KeyAddressMode`); `mod.rs` only ever uses `DstAddrMode`. -/
inductive KeyAddressMode
  | DstAddrMode
deriving DecidableEq

/-- Modelled from the spec: a looked-up key descriptor — the raw
symmetric key bytes. -/
structure KeyDescriptor where
  key : List Nat

/-- Modelled from the spec: the security context
(`security::SecurityContext`) — the context-owned frame counter and the
key-lookup capability (`KeyDescriptorLookup`), here a plain function. -/
structure SecurityContext where
  frame_counter : Nat
  key_provider : KeyAddressMode → List Nat → Option Address → Option KeyDescriptor

/-- Serialization/deserialization context (`FrameSerDesContext` in
`mod.rs`): footer mode plus an optional security context. -/
structure FrameSerDesContext where
  footer_mode : FooterMode
  security_ctx : Option SecurityContext

/-- The `auth_len` table of `secure_frame` (authentication tag length
per security level), verbatim from `mod.rs`. -/
def authLen : SecurityLevel → Nat
  | .None => 0
  | .MIC32 => 4
  | .MIC64 => 8
  | .MIC128 => 16
  | .ENC => 0
  | .ENCMIC32 => 4
  | .ENCMIC64 => 8
  | .ENCMIC128 => 16

/-- One invocation of the AEAD primitive, recording the arguments the
code passes to `encrypt_in_place_detached`: the nonce, the associated
data and the in-place buffer. -/
structure AeadCall where
  nonce : List Nat
  associated_data : List Nat
  buffer : List Nat
deriving DecidableEq

/-- Result of `Frame::secure_frame`. The Rust function mutates the frame
and the context in place and returns `Result<(), SecurityError>`; here
the (possibly updated) frame and context are returned explicitly, `ok`
additionally records the AEAD invocation made, if any, and the two
`panic!` calls are represented by `panicked` with their messages. -/
inductive SecureResult (B C : Type)
  | ok : Frame B C → SecurityContext → Option AeadCall → SecureResult B C
  | err : SecurityError → Frame B C → SecurityContext → SecureResult B C
  | panicked : String → SecureResult B C

/-- The function `Frame::secure_frame` from `mod.rs`, embedded statement by
statement. `keyOk` models `AEAD::new_from_slice` succeeding on the given
key bytes (its `Err` arm is `SecurityError::KeyFailure`). In the `MIC*`
arm the code calls `encrypt_in_place_detached` with
`GenericArray::default()` (an all-zero nonce), the payload as associated
data and an empty buffer, and discards the returned tag; the `ENC` and
`ENCMIC*` arms of the source are empty. -/
def secure_frame {B C : Type} (keyOk : List Nat → Bool) (f : Frame B C)
    (ctx : SecurityContext) : SecureResult B C :=
  if f.header.security then
    match f.header.auxiliary_security_header with
    | some aux_sec_header =>
      let auth_len := authLen aux_sec_header.control.security_level
      let aux_len := aux_sec_header.get_octet_size
      if auth_len + aux_len + 2 > 127 then
        .err .FrameTooLong f ctx
      else if ctx.frame_counter = 4294967295 then
        .err .CounterError f ctx
      else
        match ctx.key_provider .DstAddrMode aux_sec_header.key_identifier
            f.header.destination with
        | some key =>
          match aux_sec_header.control.security_level with
          | .None => .ok f ctx none
          | .MIC32 | .MIC64 | .MIC128 =>
            if keyOk key.key then
              .ok f ctx (some ⟨List.replicate 13 0, f.payload, []⟩)
            else
              .err .KeyFailure f ctx
          | .ENC => .ok f ctx none
          | .ENCMIC32 => .ok f ctx none
          | .ENCMIC64 => .ok f ctx none
          | .ENCMIC128 => .ok f ctx none
        | none => .err .UnavailableKey f ctx
    | none => .panicked "Security on but AuxSecHeader absent"
  else
    if f.header.auxiliary_security_header.isSome then
      .panicked "Security off but AuxSecHeader present"
    else
      .ok f ctx none

/-- Whether a secure-operation result is a reported error. -/
def SecureResult.isErr {B C : Type} : SecureResult B C → Bool
  | .err _ _ _ => true
  | _ => false

/-- Whether a secure-operation result is a success. -/
def SecureResult.isOk {B C : Type} : SecureResult B C → Bool
  | .ok _ _ _ => true
  | _ => false

/-- The frame counter of the context carried in the result, if the
operation did not panic. -/
def SecureResult.counterAfter {B C : Type} : SecureResult B C → Option Nat
  | .ok _ c _ => some c.frame_counter
  | .err _ _ c => some c.frame_counter
  | .panicked _ => none

/-- The nonce handed to the AEAD primitive, if it was invoked. -/
def SecureResult.nonceUsed {B C : Type} : SecureResult B C → Option (List Nat)
  | .ok _ _ (some call) => some call.nonce
  | _ => none

/-- Big-endian byte decomposition, most significant byte first. -/
def natBE : Nat → Nat → List Nat
  | 0, _ => []
  | k + 1, n => n / 256 ^ k % 256 :: natBE k n

/-- Numeric value of a security level (bits 0–2 of the security control
byte). -/
def levelVal : SecurityLevel → Nat
  | .None => 0
  | .MIC32 => 1
  | .MIC64 => 2
  | .MIC128 => 3
  | .ENC => 4
  | .ENCMIC32 => 5
  | .ENCMIC64 => 6
  | .ENCMIC128 => 7

/-- Modelled from the spec: the 13-byte nonce the specification
prescribes for the security transform — the 8-byte source extended
address, the 4-byte frame counter in big-endian order, and the 1-byte
security level. -/
def spec_nonce (srcExtAddr : Nat) (frame_counter : Nat) (lvl : SecurityLevel) :
    List Nat :=
  natBE 8 srcExtAddr ++ natBE 4 frame_counter ++ [levelVal lvl]

/-! ## Wire format: primitive readers and writers

Multi-byte integers are little-endian on the wire. Readers consume from
the front of a byte list and return the value together with the
remaining bytes. -/

/-- The decode-error taxonomy (`DecodeError` in `mod.rs`). -/
inductive DecodeError
  | NotEnoughBytes
  | InvalidFrameType : Nat → DecodeError
  | SecurityNotSupported
  | InvalidAddressMode : Nat → DecodeError
  | InvalidFrameVersion : Nat → DecodeError
  | InvalidSecurityLevel : Nat → DecodeError
  | InvalidKeyIdentifierMode : Nat → DecodeError
  | SecurityNotEnabled
  | AuxSecHeaderAbsent
  | InvalidValue
deriving DecidableEq

/-- Little-endian 16-bit encoding. -/
def u16LE (n : Nat) : List Nat :=
  [n % 256, n / 256 % 256]

/-- Little-endian 32-bit encoding. -/
def u32LE (n : Nat) : List Nat :=
  [n % 256, n / 256 % 256, n / 65536 % 256, n / 16777216 % 256]

/-- Little-endian 64-bit encoding. -/
def u64LE (n : Nat) : List Nat :=
  [n % 256, n / 256 % 256, n / 65536 % 256, n / 16777216 % 256,
   n / 4294967296 % 256, n / 1099511627776 % 256,
   n / 281474976710656 % 256, n / 72057594037927936 % 256]

/-- Read one byte. -/
def readU8 : List Nat → Except DecodeError (Nat × List Nat)
  | [] => .error .NotEnoughBytes
  | b :: rest => .ok (b, rest)

/-- Read a little-endian 16-bit value. -/
def readU16 : List Nat → Except DecodeError (Nat × List Nat)
  | b0 :: b1 :: rest => .ok (b0 + 256 * b1, rest)
  | _ => .error .NotEnoughBytes

/-- Read a little-endian 32-bit value. -/
def readU32 : List Nat → Except DecodeError (Nat × List Nat)
  | b0 :: b1 :: b2 :: b3 :: rest =>
    .ok (b0 + 256 * b1 + 65536 * b2 + 16777216 * b3, rest)
  | _ => .error .NotEnoughBytes

/-- Read a little-endian 64-bit value. -/
def readU64 : List Nat → Except DecodeError (Nat × List Nat)
  | b0 :: b1 :: b2 :: b3 :: b4 :: b5 :: b6 :: b7 :: rest =>
    .ok (b0 + 256 * b1 + 65536 * b2 + 16777216 * b3 + 4294967296 * b4
      + 1099511627776 * b5 + 281474976710656 * b6
      + 72057594037927936 * b7, rest)
  | _ => .error .NotEnoughBytes

/-- Read exactly `n` raw bytes. -/
def readBytes : Nat → List Nat → Except DecodeError (List Nat × List Nat)
  | 0, bs => .ok ([], bs)
  | _ + 1, [] => .error .NotEnoughBytes
  | n + 1, b :: bs =>
    match readBytes n bs with
    | .ok (xs, rest) => .ok (b :: xs, rest)
    | .error e => .error e

/-! ## Header codec

Modelled from the spec (the sources `header.rs`, `frame_control.rs` and
`security_control.rs` are not available here); the exact bit and byte
layout is pinned by the `mod.rs` unit tests (`decode_ver0_*`,
`encode_ver0_*`, `encode_ver1_extended`, `encode_ver2_none`). -/

/-- Numeric value of the frame type (bits 0–2 of the frame control
word). -/
def frameTypeVal : FrameType → Nat
  | .Beacon => 0
  | .Data => 1
  | .Acknowledgement => 2
  | .MacCommand => 3

/-- Numeric value of the frame version (bits 12–13 of the frame control
word). -/
def versionVal : FrameVersion → Nat
  | .Ieee802154_2003 => 0
  | .Ieee802154_2006 => 1
  | .Ieee802154 => 2

/-- Address mode bits derived from an optional address: absent → 0,
short → 2, extended → 3 (mode 1 is reserved and invalid). -/
def addrModeVal : Option Address → Nat
  | none => 0
  | some (.Short _ _) => 2
  | some (.Extended _ _) => 3

/-- Value `1` for `true`, `0` for `false`: a flag bit of the control word. -/
def boolVal : Bool → Nat
  | true => 1
  | false => 0

/-- Numeric value of the key identifier mode (bits 3–4 of the security
control byte). -/
def kimVal : KeyIdentifierMode → Nat
  | .None => 0
  | .KeyIndex => 1
  | .KeySource4 => 2
  | .KeySource8 => 3

/-- Modelled from the spec: the 16-bit frame control word —
`[type:3][security:1][pending:1][ack_req:1][pan_compress:1][reserved]`
in the low byte, `[dst_mode:2][version:2][src_mode:2]` at bits 10–15. -/
def frameControl (h : Header) : Nat :=
  frameTypeVal h.frame_type + 8 * boolVal h.security
    + 16 * boolVal h.frame_pending + 32 * boolVal h.ack_request
    + 64 * boolVal h.pan_id_compress + 1024 * addrModeVal h.destination
    + 4096 * versionVal h.version + 16384 * addrModeVal h.source

/-- Modelled from the spec: encode an address as PAN id (2 bytes LE)
followed by the 2- or 8-byte little-endian address. -/
def encAddr : Address → List Nat
  | .Short pan a => u16LE pan ++ u16LE a
  | .Extended pan a => u16LE pan ++ u64LE a

/-- Modelled from the spec: encode an address without its PAN id (the
compressed form of the source address). -/
def encAddrNoPan : Address → List Nat
  | .Short _ a => u16LE a
  | .Extended _ a => u64LE a

/-- Encode an optional destination address (absent → no bytes). -/
def encDst : Option Address → List Nat
  | none => []
  | some a => encAddr a

/-- Modelled from the spec: encode an optional source address; its PAN
id is omitted when PAN-id compression is on and the destination is
present. -/
def encSrc (compress : Bool) (dstPresent : Bool) : Option Address → List Nat
  | none => []
  | some a => if compress && dstPresent then encAddrNoPan a else encAddr a

/-- Modelled from the spec: encode the auxiliary security header — the
control byte (security level in bits 0–2, key id mode in bits 3–4), the
4-byte little-endian frame counter, then the key identifier bytes. -/
def encAux (a : AuxiliarySecurityHeader) : List Nat :=
  (levelVal a.control.security_level + 8 * kimVal a.control.key_id_mode)
    :: u32LE a.frame_counter ++ a.key_identifier

/-- Modelled from the spec: `Header`'s `TryWrite` — frame control word,
sequence byte, destination, source, and (when the security flag is set)
the auxiliary security header. -/
def encodeHeader (h : Header) : List Nat :=
  u16LE (frameControl h) ++ [h.seq] ++ encDst h.destination
    ++ encSrc h.pan_id_compress h.destination.isSome h.source
    ++ (if h.security then
          match h.auxiliary_security_header with
          | some a => encAux a
          | none => []
        else [])

/-- Decode the 3-bit frame type field; values above 3 cannot occur for
a 3-bit field but are rejected as `InvalidFrameType` as in the source. -/
def decodeFrameType (n : Nat) : Except DecodeError FrameType :=
  match n with
  | 0 => .ok .Beacon
  | 1 => .ok .Data
  | 2 => .ok .Acknowledgement
  | 3 => .ok .MacCommand
  | b => .error (.InvalidFrameType b)

/-- Decode the 2-bit version field; the reserved value 3 is rejected as
`InvalidFrameVersion`. -/
def decodeVersion (n : Nat) : Except DecodeError FrameVersion :=
  match n with
  | 0 => .ok .Ieee802154_2003
  | 1 => .ok .Ieee802154_2006
  | 2 => .ok .Ieee802154
  | b => .error (.InvalidFrameVersion b)

/-- Security level from the low 3 bits of the control byte (all eight
values are valid). -/
def decodeLevel (n : Nat) : SecurityLevel :=
  match n with
  | 0 => .None
  | 1 => .MIC32
  | 2 => .MIC64
  | 3 => .MIC128
  | 4 => .ENC
  | 5 => .ENCMIC32
  | 6 => .ENCMIC64
  | _ => .ENCMIC128

/-- Key identifier mode from bits 3–4 of the control byte (all four
values are valid). -/
def decodeKim (n : Nat) : KeyIdentifierMode :=
  match n with
  | 0 => .None
  | 1 => .KeyIndex
  | 2 => .KeySource4
  | _ => .KeySource8

/-- Modelled from the spec: decode one address given its 2-bit mode.
`sharedPan` is the destination's PAN id when PAN-id compression applies
to this address, in which case no PAN id is read from the wire. Mode 1
is reserved and rejected as `InvalidAddressMode`. -/
def decodeAddr (mode : Nat) (sharedPan : Option Nat) (bs : List Nat) :
    Except DecodeError (Option Address × List Nat) :=
  match mode, sharedPan with
  | 0, _ => .ok (none, bs)
  | 2, some pan =>
    match readU16 bs with
    | .error e => .error e
    | .ok (a, bs1) => .ok (some (.Short pan a), bs1)
  | 2, none =>
    match readU16 bs with
    | .error e => .error e
    | .ok (pan, bs1) =>
      match readU16 bs1 with
      | .error e => .error e
      | .ok (a, bs2) => .ok (some (.Short pan a), bs2)
  | 3, some pan =>
    match readU64 bs with
    | .error e => .error e
    | .ok (a, bs1) => .ok (some (.Extended pan a), bs1)
  | 3, none =>
    match readU16 bs with
    | .error e => .error e
    | .ok (pan, bs1) =>
      match readU64 bs1 with
      | .error e => .error e
      | .ok (a, bs2) => .ok (some (.Extended pan a), bs2)
  | m, _ => .error (.InvalidAddressMode m)

/-- Modelled from the spec and the `decode_ver0_pan_id_compression_bad`
test: decode the source address. With PAN-id compression on and a
present source, an absent destination is rejected as
`InvalidAddressMode 0`; otherwise the destination's PAN id is reused. -/
def decodeSrc (mode : Nat) (compress : Bool) (dst : Option Address)
    (bs : List Nat) : Except DecodeError (Option Address × List Nat) :=
  if mode = 0 then .ok (none, bs)
  else if compress then
    match dst with
    | some d => decodeAddr mode (some d.pan) bs
    | none => .error (.InvalidAddressMode 0)
  else decodeAddr mode none bs

/-- Modelled from the spec: decode the auxiliary security header —
control byte, 4-byte frame counter, key identifier bytes. -/
def decodeAux (bs : List Nat) :
    Except DecodeError (AuxiliarySecurityHeader × List Nat) :=
  match readU8 bs with
  | .error e => .error e
  | .ok (ctrl, bs1) =>
    match readU32 bs1 with
    | .error e => .error e
    | .ok (ctr, bs2) =>
      match readBytes (keyIdLen (decodeKim (ctrl / 8 % 4))) bs2 with
      | .error e => .error e
      | .ok (kid, bs3) =>
        .ok (⟨⟨decodeLevel (ctrl % 8), decodeKim (ctrl / 8 % 4)⟩, ctr, kid⟩,
          bs3)

/-- Modelled from the spec: `Header`'s `TryRead` — frame control word,
sequence number, destination, source (honoring compression), and the
auxiliary security header when the security bit is set. -/
def decodeHeader (bs : List Nat) : Except DecodeError (Header × List Nat) :=
  match readU16 bs with
  | .error e => .error e
  | .ok (fc, bs1) =>
    match readU8 bs1 with
    | .error e => .error e
    | .ok (sq, bs2) =>
      match decodeFrameType (fc % 8) with
      | .error e => .error e
      | .ok ft =>
        match decodeVersion (fc / 4096 % 4) with
        | .error e => .error e
        | .ok ver =>
          match decodeAddr (fc / 1024 % 4) none bs2 with
          | .error e => .error e
          | .ok (dst, bs3) =>
            match decodeSrc (fc / 16384 % 4) (fc / 64 % 2 == 1) dst bs3 with
            | .error e => .error e
            | .ok (src, bs4) =>
              if fc / 8 % 2 == 1 then
                match decodeAux bs4 with
                | .error e => .error e
                | .ok (aux, bs5) =>
                  .ok ({ frame_type := ft, security := true,
                         frame_pending := fc / 16 % 2 == 1,
                         ack_request := fc / 32 % 2 == 1,
                         pan_id_compress := fc / 64 % 2 == 1,
                         version := ver, seq := sq, destination := dst,
                         source := src,
                         auxiliary_security_header := some aux }, bs5)
              else
                .ok ({ frame_type := ft, security := false,
                       frame_pending := fc / 16 % 2 == 1,
                       ack_request := fc / 32 % 2 == 1,
                       pan_id_compress := fc / 64 % 2 == 1,
                       version := ver, seq := sq, destination := dst,
                       source := src,
                       auxiliary_security_header := none }, bs4)

/-! ## Content codec and the `Frame` codec entry points -/

/-- Modelled from the spec: an external body codec (the beacon and
MAC-command body layouts are opaque collaborators): an encoder to bytes
and a decoder returning the body and the number of bytes consumed,
together with the codec law the collaborators provide. -/
structure BodyCodec (B : Type) where
  enc : B → List Nat
  dec : List Nat → Except DecodeError (B × Nat)
  dec_enc : ∀ (b : B) (rest : List Nat), dec (enc b ++ rest) = .ok (b, (enc b).length)

/-- The `TryWrite` impl of `FrameContent` from `mod.rs`: beacon and command bodies
are delegated, `Data` and `Acknowledgement` write nothing. -/
def encodeContent {B C : Type} (bc : BodyCodec B) (cc : BodyCodec C) :
    FrameContent B C → List Nat
  | .Beacon b => bc.enc b
  | .Data => []
  | .Acknowledgement => []
  | .Command c => cc.enc c

/-- The `TryRead` impl of `FrameContent` from `mod.rs`: dispatch on the already
decoded header's frame type; `Data` and `Acknowledgement` consume no
bytes. -/
def decodeContent {B C : Type} (bc : BodyCodec B) (cc : BodyCodec C)
    (ft : FrameType) (bs : List Nat) :
    Except DecodeError (FrameContent B C × List Nat) :=
  match ft with
  | .Beacon =>
    match bc.dec bs with
    | .error e => .error e
    | .ok (b, n) => .ok (.Beacon b, bs.drop n)
  | .Data => .ok (.Data, bs)
  | .Acknowledgement => .ok (.Acknowledgement, bs)
  | .MacCommand =>
    match cc.dec bs with
    | .error e => .error e
    | .ok (c, n) => .ok (.Command c, bs.drop n)

/-- The function `Frame::try_write` from `mod.rs`: header, content, payload, and the
2 footer bytes when the context's footer mode is `Explicit`. The Rust
function writes into a caller buffer and returns the offset; here the
written bytes are returned (their length is the returned offset). Only
`context.footer_mode` is consulted, exactly as in the source. -/
def tryWrite {B C : Type} (bc : BodyCodec B) (cc : BodyCodec C)
    (f : Frame B C) (context : FrameSerDesContext) : List Nat :=
  encodeHeader f.header ++ encodeContent bc cc f.content ++ f.payload ++
    (match context.footer_mode with
     | .None => []
     | .Explicit => [f.footer.1, f.footer.2])

/-- Result of `Frame::try_read`: success, a decode error, or a panic
(the unchecked `bytes.len() - offset - 2` subtraction). -/
inductive ReadResult (α : Type)
  | ok : α → ReadResult α
  | err : DecodeError → ReadResult α
  | panicked : ReadResult α
deriving DecidableEq

/-- The header-plus-content stage of `Frame::try_read`: decode the
header, then the content using it, returning both and the remaining
bytes. -/
def readHeaderContent {B C : Type} (bc : BodyCodec B) (cc : BodyCodec C)
    (bs : List Nat) :
    Except DecodeError ((Header × FrameContent B C) × List Nat) :=
  match decodeHeader bs with
  | .error e => .error e
  | .ok (h, bs1) =>
    match decodeContent bc cc h.frame_type bs1 with
    | .error e => .error e
    | .ok (ct, bs2) => .ok ((h, ct), bs2)

/-- The function `Frame::try_read` from `mod.rs`. Under `FooterMode::None` the whole
remainder is the payload and the footer is `0u16.to_le_bytes()`; under
`FooterMode::Explicit` the payload length is `bytes.len() - offset - 2`
— an unsigned subtraction that panics (checked arithmetic) when fewer
than 2 bytes remain — followed by the 2-byte little-endian footer. The
returned offset is the whole buffer length in both modes. -/
def tryRead {B C : Type} (bc : BodyCodec B) (cc : BodyCodec C)
    (bs : List Nat) (mode : FooterMode) : ReadResult (Frame B C × Nat) :=
  match readHeaderContent bc cc bs with
  | .error e => .err e
  | .ok ((h, ct), rest) =>
    match mode with
    | .None => .ok (⟨h, ct, rest, (0, 0)⟩, bs.length)
    | .Explicit =>
      if rest.length < 2 then .panicked
      else
        match rest.drop (rest.length - 2) with
        | [f0, f1] =>
          .ok (⟨h, ct, rest.take (rest.length - 2),
            ((f0 + 256 * f1) % 256, (f0 + 256 * f1) / 256 % 256)⟩, bs.length)
        | _ => .err .NotEnoughBytes

/-! ## Well-formedness

The side conditions under which a `Frame` value denotes a legal frame:
numeric fields fit their wire width, the content variant matches the
header's frame type, the security flag agrees with the auxiliary
security header's presence, and PAN-id compression only occurs with a
destination present and matching PAN ids. -/

/-- Field bounds of an address. -/
def addrWF : Address → Prop
  | .Short p a => p < 65536 ∧ a < 65536
  | .Extended p a => p < 65536 ∧ a < 18446744073709551616

/-- Field bounds of an optional address. -/
def addrOptWF : Option Address → Prop
  | none => True
  | some a => addrWF a

/-- The shape PAN-id compression requires of the two addresses: a
present source needs a present destination with the same PAN id. -/
def compressShape : Option Address → Option Address → Prop
  | none, _ => True
  | some _, none => False
  | some s, some d => s.pan = d.pan

/-- Field bounds of an auxiliary security header, and agreement of the
key identifier's width with its mode. -/
def auxWF (a : AuxiliarySecurityHeader) : Prop :=
  a.frame_counter < 4294967296 ∧
    a.key_identifier.length = keyIdLen a.control.key_id_mode ∧
    ∀ x ∈ a.key_identifier, x < 256

/-- Field bounds of an optional auxiliary security header. -/
def auxOptWF : Option AuxiliarySecurityHeader → Prop
  | none => True
  | some a => auxWF a

/-- Well-formedness of a header. -/
def HeaderWF (h : Header) : Prop :=
  h.seq < 256 ∧ addrOptWF h.destination ∧ addrOptWF h.source ∧
    (h.pan_id_compress = true → compressShape h.source h.destination) ∧
    h.security = h.auxiliary_security_header.isSome ∧
    auxOptWF h.auxiliary_security_header

/-- The content variant a frame type selects. -/
def contentMatches {B C : Type} : FrameType → FrameContent B C → Prop
  | .Beacon, .Beacon _ => True
  | .Data, .Data => True
  | .Acknowledgement, .Acknowledgement => True
  | .MacCommand, .Command _ => True
  | _, _ => False

/-- Well-formedness of a frame. -/
def FrameWF {B C : Type} (f : Frame B C) : Prop :=
  HeaderWF f.header ∧ contentMatches f.header.frame_type f.content ∧
    (∀ x ∈ f.payload, x < 256) ∧ f.footer.1 < 256 ∧ f.footer.2 < 256

/-! ## Concrete instances used to evaluate the theorems -/

/-- The trivial external body codec on `Unit`: empty body, zero bytes. -/
def unitCodec : BodyCodec Unit where
  enc _ := []
  dec _ := .ok ((), 0)
  dec_enc _ _ := rfl

/-- A key-lookup capability that always finds a 16-byte key. -/
def keyProvider0 :
    KeyAddressMode → List Nat → Option Address → Option KeyDescriptor :=
  fun _ _ _ => some ⟨List.replicate 16 0⟩

/-- An AEAD key instantiation predicate that always succeeds. -/
def kOk0 : List Nat → Bool := fun _ => true

/-- A security context with the given frame counter and `keyProvider0`. -/
def ctxAt (n : Nat) : SecurityContext := ⟨n, keyProvider0⟩

/-- An auxiliary security header at the given security level, with key
identifier mode `None`. -/
def auxAt (lvl : SecurityLevel) : AuxiliarySecurityHeader :=
  ⟨⟨lvl, .None⟩, 0, []⟩

/-- A concrete secured data frame at the given security level, with an
extended source address and payload `[1, 2, 3]`. -/
def secFrame (lvl : SecurityLevel) : Frame Unit Unit :=
  ⟨{ frame_type := .Data, security := true, frame_pending := false,
     ack_request := false, pan_id_compress := false,
     version := .Ieee802154_2006, seq := 1,
     destination := some (.Short 4660 22136),
     source := some (.Extended 4660 1234605616436508552),
     auxiliary_security_header := some (auxAt lvl) }, .Data, [1, 2, 3],
    (0, 0)⟩

/-- A frame whose security flag is on but whose auxiliary security
header is absent. -/
def mismatchFrameOn : Frame Unit Unit :=
  ⟨{ frame_type := .Data, security := true, frame_pending := false,
     ack_request := false, pan_id_compress := false,
     version := .Ieee802154_2006, seq := 1, destination := none,
     source := none, auxiliary_security_header := none }, .Data, [], (0, 0)⟩

/-- A frame whose security flag is off but which carries an auxiliary
security header. -/
def mismatchFrameOff : Frame Unit Unit :=
  ⟨{ frame_type := .Data, security := false, frame_pending := false,
     ack_request := false, pan_id_compress := false,
     version := .Ieee802154_2006, seq := 1, destination := none,
     source := none,
     auxiliary_security_header := some (auxAt .MIC32) }, .Data, [], (0, 0)⟩

/-- The data frame of the `encode_ver0_short` test in `mod.rs`. -/
def frameC8Data : Frame Unit Unit :=
  ⟨{ frame_type := .Data, security := false, frame_pending := false,
     ack_request := false, pan_id_compress := false,
     version := .Ieee802154_2003, seq := 1,
     destination := some (.Short 4660 22136),
     source := some (.Short 17185 39612),
     auxiliary_security_header := none }, .Data, [222, 240], (0, 0)⟩

/-- The acknowledgement frame of the `encode_ver0_pan_compress` test in
`mod.rs`. -/
def frameC8Ack : Frame Unit Unit :=
  ⟨{ frame_type := .Acknowledgement, security := false,
     frame_pending := false, ack_request := false, pan_id_compress := true,
     version := .Ieee802154_2003, seq := 255,
     destination := some (.Extended 4660 1234605616436508552),
     source := some (.Short 4660 39612),
     auxiliary_security_header := none }, .Acknowledgement, [], (0, 0)⟩

/-- A well-formed data frame with a nonempty payload and footer, used to
evaluate the round-trip theorem. -/
def frameC7 : Frame Unit Unit :=
  ⟨{ frame_type := .Data, security := false, frame_pending := false,
     ack_request := false, pan_id_compress := false,
     version := .Ieee802154_2003, seq := 1,
     destination := some (.Short 4660 22136),
     source := some (.Short 17185 39612),
     auxiliary_security_header := none }, .Data, [222, 240], (18, 52)⟩

/-- The header decoded from the 4-byte input `[1, 0, 42, 7]`: a data
frame with no addresses and sequence number 42. -/
def hdrC10 : Header :=
  { frame_type := .Data, security := false, frame_pending := false,
    ack_request := false, pan_id_compress := false,
    version := .Ieee802154_2003, seq := 42, destination := none,
    source := none, auxiliary_security_header := none }

/-! ## Theorems about the security transform -/

/-- C5: for every frame with the security flag on and an auxiliary
security header present whose length check passes, a frame counter of
`0xFFFFFFFF` makes the secure operation fail with `CounterError`; the
result carries the frame (hence its payload) and the context (hence its
frame counter) unchanged. -/
theorem C5_counter_exhaustion {B C : Type} (keyOk : List Nat → Bool)
    (f : Frame B C) (ctx : SecurityContext) (aux : AuxiliarySecurityHeader)
    (hsec : f.header.security = true)
    (haux : f.header.auxiliary_security_header = some aux)
    (hlen : authLen aux.control.security_level + aux.get_octet_size + 2 ≤ 127)
    (hctr : ctx.frame_counter = 4294967295) :
    secure_frame keyOk f ctx = .err .CounterError f ctx := by
  simp only [secure_frame, hsec, haux, if_true]
  rw [if_neg (by omega), if_pos hctr]

/-- Witness for C5 at a concrete `MIC32` frame and an exhausted
counter. -/
theorem C5_witness :
    secure_frame kOk0 (secFrame .MIC32) (ctxAt 4294967295) =
      .err .CounterError (secFrame .MIC32) (ctxAt 4294967295) :=
  C5_counter_exhaustion kOk0 (secFrame .MIC32) (ctxAt 4294967295)
    (auxAt .MIC32) rfl rfl (by decide) rfl

/-- C6: for every frame with the security flag on and an auxiliary
security header present, the secure operation fails with `FrameTooLong`
exactly when `auth_tag_len + aux_header_octet_size + 2 > 127`; in
particular this holds whatever the frame counter and the key lookup
would do, because the length check is made before both. -/
theorem C6_frame_too_long_iff {B C : Type} (keyOk : List Nat → Bool)
    (f : Frame B C) (ctx : SecurityContext) (aux : AuxiliarySecurityHeader)
    (hsec : f.header.security = true)
    (haux : f.header.auxiliary_security_header = some aux) :
    secure_frame keyOk f ctx = .err .FrameTooLong f ctx ↔
      authLen aux.control.security_level + aux.get_octet_size + 2 > 127 := by
  rcases Nat.lt_or_ge 127
      (authLen aux.control.security_level + aux.get_octet_size + 2) with hgt | hle
  · refine iff_of_true ?_ hgt
    simp only [secure_frame, hsec, haux, if_true]
    rw [if_pos hgt]
  · refine iff_of_false ?_ (by omega)
    simp only [secure_frame, hsec, haux, if_true]
    rw [if_neg (by omega)]
    split
    · simp
    · split
      · split <;> simp <;> split <;> simp
      · simp

/-- Witness for C6 at a concrete `MIC32` frame: the length bound holds,
and the operation indeed does not fail with `FrameTooLong`. -/
theorem C6_witness :
    secure_frame kOk0 (secFrame .MIC32) (ctxAt 5) =
        .err .FrameTooLong (secFrame .MIC32) (ctxAt 5) ↔
      authLen (auxAt .MIC32).control.security_level
          + (auxAt .MIC32).get_octet_size + 2 > 127 :=
  C6_frame_too_long_iff kOk0 (secFrame .MIC32) (ctxAt 5) (auxAt .MIC32)
    rfl rfl

/-- C2 (code bug): a fully successful secure operation does **not**
increment the context's frame counter. At a concrete `MIC32` frame with
counter 5, key lookup and key instantiation succeeding, the operation
succeeds yet the counter carried in the result is still 5, not 6. -/
theorem C2_counter_not_incremented :
    (secure_frame kOk0 (secFrame .MIC32) (ctxAt 5)).isOk = true ∧
      (secure_frame kOk0 (secFrame .MIC32) (ctxAt 5)).counterAfter = some 5 ∧
      (secure_frame kOk0 (secFrame .MIC32) (ctxAt 5)).counterAfter ≠ some 6 :=
  ⟨rfl, rfl, by decide⟩

/-- C1 (code bug): the nonce the code hands to the AEAD primitive is
`GenericArray::default()` — thirteen zero bytes — not the 13-byte
concatenation of source extended address, big-endian frame counter and
security level that the specification prescribes; consequently two
secure operations with distinct frame counters (5 and 6) use the same
nonce. -/
theorem C1_nonce_is_all_zero :
    (secure_frame kOk0 (secFrame .MIC32) (ctxAt 5)).nonceUsed =
        some (List.replicate 13 0) ∧
      (secure_frame kOk0 (secFrame .MIC32) (ctxAt 5)).nonceUsed =
        (secure_frame kOk0 (secFrame .MIC32) (ctxAt 6)).nonceUsed ∧
      List.replicate 13 0 ≠ spec_nonce 1234605616436508552 5 .MIC32 :=
  ⟨rfl, rfl, by decide⟩

/-- C4 (code bug): after validation and key lookup succeed, the code
applies no transform: `ENC` and `ENCMIC32` return the frame unchanged
without invoking the AEAD primitive at all (no encryption, no tag), and
`MIC32` invokes it with the payload as associated data and an empty
buffer but discards the returned tag, so the frame is returned unchanged
with no tag appended. -/
theorem C4_transform_not_applied :
    secure_frame kOk0 (secFrame .ENC) (ctxAt 5) =
        .ok (secFrame .ENC) (ctxAt 5) none ∧
      secure_frame kOk0 (secFrame .ENCMIC32) (ctxAt 5) =
        .ok (secFrame .ENCMIC32) (ctxAt 5) none ∧
      secure_frame kOk0 (secFrame .MIC32) (ctxAt 5) =
        .ok (secFrame .MIC32) (ctxAt 5)
          (some ⟨List.replicate 13 0, [1, 2, 3], []⟩) :=
  ⟨rfl, rfl, rfl⟩

/-- C3 counterexample: on a frame whose security flag is on but whose
auxiliary security header is absent, the secure operation does not
return a reported error — it panics (aborts), with the message the
source passes to `panic!`. -/
theorem C3_counterexample :
    secure_frame kOk0 mismatchFrameOn (ctxAt 5) =
        .panicked "Security on but AuxSecHeader absent" ∧
      (secure_frame kOk0 mismatchFrameOn (ctxAt 5)).isErr = false :=
  ⟨rfl, rfl⟩

/-- C3 as amended: when the security flag disagrees with the presence of
the auxiliary security header, the secure operation panics (process
abort) with a message distinguishing the two cases, instead of
returning an error. -/
theorem C3_amended_panics {B C : Type} (keyOk : List Nat → Bool)
    (f : Frame B C) (ctx : SecurityContext)
    (hdis : f.header.security = true ∧
        f.header.auxiliary_security_header = none ∨
      f.header.security = false ∧
        f.header.auxiliary_security_header ≠ none) :
    secure_frame keyOk f ctx =
        .panicked "Security on but AuxSecHeader absent" ∨
      secure_frame keyOk f ctx =
        .panicked "Security off but AuxSecHeader present" := by
  rcases hdis with ⟨h1, h2⟩ | ⟨h1, h2⟩
  · left
    simp [secure_frame, h1, h2]
  · right
    have h3 : f.header.auxiliary_security_header.isSome = true :=
      Option.ne_none_iff_isSome.mp h2
    simp [secure_frame, h1, h3]

/-- Witness for the amended C3 at a concrete frame with security off
but an auxiliary security header present. -/
theorem C3_amended_witness :
    secure_frame kOk0 mismatchFrameOff (ctxAt 5) =
        .panicked "Security on but AuxSecHeader absent" ∨
      secure_frame kOk0 mismatchFrameOff (ctxAt 5) =
        .panicked "Security off but AuxSecHeader present" :=
  C3_amended_panics kOk0 mismatchFrameOff (ctxAt 5)
    (Or.inr ⟨rfl, by decide⟩)

/-! ## Round-trip lemmas for the primitive readers -/

/-- Reading back a little-endian 16-bit encoding. -/
theorem readU16_u16LE (n : Nat) (hn : n < 65536) (rest : List Nat) :
    readU16 (u16LE n ++ rest) = .ok (n, rest) := by
  have : n % 256 + 256 * (n / 256 % 256) = n := by omega
  simp [u16LE, readU16, this]

/-- Reading back a little-endian 32-bit encoding. -/
theorem readU32_u32LE (n : Nat) (hn : n < 4294967296) (rest : List Nat) :
    readU32 (u32LE n ++ rest) = .ok (n, rest) := by
  have : n % 256 + 256 * (n / 256 % 256) + 65536 * (n / 65536 % 256)
      + 16777216 * (n / 16777216 % 256) = n := by omega
  simp [u32LE, readU32, this]

/-- Reading back a little-endian 64-bit encoding. -/
theorem readU64_u64LE (n : Nat) (hn : n < 18446744073709551616)
    (rest : List Nat) : readU64 (u64LE n ++ rest) = .ok (n, rest) := by
  have : n % 256 + 256 * (n / 256 % 256) + 65536 * (n / 65536 % 256)
      + 16777216 * (n / 16777216 % 256) + 4294967296 * (n / 4294967296 % 256)
      + 1099511627776 * (n / 1099511627776 % 256)
      + 281474976710656 * (n / 281474976710656 % 256)
      + 72057594037927936 * (n / 72057594037927936 % 256) = n := by omega
  simp [u64LE, readU64, this]

/-- Reading back raw bytes. -/
theorem readBytes_append (xs rest : List Nat) :
    readBytes xs.length (xs ++ rest) = .ok (xs, rest) := by
  induction xs with
  | nil => rfl
  | cons b bs ih => simp [readBytes, ih]

/-! ## Round-trip lemmas for the header codec -/

/-- The frame control word fits in 16 bits. -/
theorem frameControl_lt (h : Header) : frameControl h < 65536 := by
  have h1 : frameTypeVal h.frame_type < 8 := by cases h.frame_type <;> decide
  have h2 : boolVal h.security < 2 := by cases h.security <;> decide
  have h3 : boolVal h.frame_pending < 2 := by cases h.frame_pending <;> decide
  have h4 : boolVal h.ack_request < 2 := by cases h.ack_request <;> decide
  have h5 : boolVal h.pan_id_compress < 2 := by
    cases h.pan_id_compress <;> decide
  have h6 : addrModeVal h.destination < 4 := by
    rcases h.destination with _ | a
    · decide
    · cases a <;> simp [addrModeVal]
  have h7 : versionVal h.version < 4 := by cases h.version <;> decide
  have h8 : addrModeVal h.source < 4 := by
    rcases h.source with _ | a
    · decide
    · cases a <;> simp [addrModeVal]
  unfold frameControl
  omega

/-- Each field of the header is recovered from its bit positions in the
frame control word. -/
theorem frameControl_bits (h : Header) :
    frameControl h % 8 = frameTypeVal h.frame_type ∧
      frameControl h / 8 % 2 = boolVal h.security ∧
      frameControl h / 16 % 2 = boolVal h.frame_pending ∧
      frameControl h / 32 % 2 = boolVal h.ack_request ∧
      frameControl h / 64 % 2 = boolVal h.pan_id_compress ∧
      frameControl h / 1024 % 4 = addrModeVal h.destination ∧
      frameControl h / 4096 % 4 = versionVal h.version ∧
      frameControl h / 16384 % 4 = addrModeVal h.source := by
  have h1 : frameTypeVal h.frame_type < 8 := by cases h.frame_type <;> decide
  have h2 : boolVal h.security < 2 := by cases h.security <;> decide
  have h3 : boolVal h.frame_pending < 2 := by cases h.frame_pending <;> decide
  have h4 : boolVal h.ack_request < 2 := by cases h.ack_request <;> decide
  have h5 : boolVal h.pan_id_compress < 2 := by
    cases h.pan_id_compress <;> decide
  have h6 : addrModeVal h.destination < 4 := by
    rcases h.destination with _ | a
    · decide
    · cases a <;> simp [addrModeVal]
  have h7 : versionVal h.version < 4 := by cases h.version <;> decide
  have h8 : addrModeVal h.source < 4 := by
    rcases h.source with _ | a
    · decide
    · cases a <;> simp [addrModeVal]
  unfold frameControl
  refine ⟨by omega, by omega, by omega, by omega, by omega, by omega,
    by omega, by omega⟩

/-- Decoding the numeric value of a frame type. -/
theorem decodeFrameType_val (t : FrameType) :
    decodeFrameType (frameTypeVal t) = .ok t := by
  cases t <;> rfl

/-- Decoding the numeric value of a frame version. -/
theorem decodeVersion_val (v : FrameVersion) :
    decodeVersion (versionVal v) = .ok v := by
  cases v <;> rfl

/-- A flag bit compares to 1 exactly as the flag. -/
theorem boolVal_beq (b : Bool) : (boolVal b == 1) = b := by
  cases b <;> rfl

/-- Decoding an encoded destination address. -/
theorem decodeAddr_encDst (a? : Option Address) (hwf : addrOptWF a?)
    (rest : List Nat) :
    decodeAddr (addrModeVal a?) none (encDst a? ++ rest) = .ok (a?, rest) := by
  match a?, hwf with
  | none, _ => rfl
  | some (.Short p a), ⟨hp, ha⟩ =>
    simp [addrModeVal, encDst, encAddr, decodeAddr, List.append_assoc,
      readU16_u16LE p hp, readU16_u16LE a ha]
  | some (.Extended p a), ⟨hp, ha⟩ =>
    simp [addrModeVal, encDst, encAddr, decodeAddr, List.append_assoc,
      readU16_u16LE p hp, readU64_u64LE a ha]

/-- Decoding an encoded source address, honoring PAN-id compression. -/
theorem decodeSrc_encSrc (compress : Bool) (dst src : Option Address)
    (hwf : addrOptWF src) (hcomp : compress = true → compressShape src dst)
    (rest : List Nat) :
    decodeSrc (addrModeVal src) compress dst
      (encSrc compress dst.isSome src ++ rest) = .ok (src, rest) := by
  match src, hwf with
  | none, _ => cases compress <;> simp [encSrc, decodeSrc, addrModeVal]
  | some a, hwf =>
    cases compress with
    | false =>
      have hm : addrModeVal (some a) ≠ 0 := by cases a <;> simp [addrModeVal]
      have hd := decodeAddr_encDst (some a) hwf rest
      simp only [encDst] at hd
      simp [decodeSrc, if_neg hm, encSrc, hd]
    | true =>
      have hshape := hcomp rfl
      match dst, hshape with
      | some d, hpan =>
        have hm : addrModeVal (some a) ≠ 0 := by cases a <;> simp [addrModeVal]
        match a, hwf, hpan with
        | .Short p x, ⟨hp, hx⟩, hpan =>
          have hpan2 : p = d.pan := hpan
          simp [decodeSrc, encSrc, encAddrNoPan, addrModeVal, decodeAddr,
            readU16_u16LE x hx, hpan2]
        | .Extended p x, ⟨hp, hx⟩, hpan =>
          have hpan2 : p = d.pan := hpan
          simp [decodeSrc, encSrc, encAddrNoPan, addrModeVal, decodeAddr,
            readU64_u64LE x hx, hpan2]

/-- Decoding an encoded auxiliary security header. -/
theorem decodeAux_encAux (a : AuxiliarySecurityHeader) (hwf : auxWF a)
    (rest : List Nat) : decodeAux (encAux a ++ rest) = .ok (a, rest) := by
  obtain ⟨⟨lvl, kim⟩, ctr, kid⟩ := a
  obtain ⟨hctr, hlen, -⟩ := hwf
  have hl : levelVal lvl < 8 := by cases lvl <;> decide
  have hk : kimVal kim < 4 := by cases kim <;> decide
  have e1 : (levelVal lvl + 8 * kimVal kim) % 8 = levelVal lvl := by omega
  have e2 : (levelVal lvl + 8 * kimVal kim) / 8 % 4 = kimVal kim := by omega
  have e3 : decodeLevel (levelVal lvl) = lvl := by cases lvl <;> rfl
  have e4 : decodeKim (kimVal kim) = kim := by cases kim <;> rfl
  have hlen' : kid.length = keyIdLen kim := hlen
  simp only [encAux, decodeAux, List.cons_append, readU8, List.append_assoc,
    e1, e2, e3, e4]
  rw [readU32_u32LE ctr hctr]
  simp only [← hlen', readBytes_append]

/-- Decoding an encoded well-formed header consumes exactly the encoded
bytes and recovers the header. -/
theorem decodeHeader_encodeHeader (h : Header) (hwf : HeaderWF h)
    (rest : List Nat) :
    decodeHeader (encodeHeader h ++ rest) = .ok (h, rest) := by
  obtain ⟨hbits1, hbits2, hbits3, hbits4, hbits5, hbits6, hbits7, hbits8⟩ :=
    frameControl_bits h
  have hlt := frameControl_lt h
  obtain ⟨ft, sec, pend, ack, comp, ver, sq, dst, src, aux⟩ := h
  obtain ⟨hseq, hdst, hsrc, hcomp, hsec, hauxwf⟩ := hwf
  simp only at hbits1 hbits2 hbits3 hbits4 hbits5 hbits6 hbits7 hbits8
  simp only at hdst hsrc hcomp hsec hauxwf
  simp only [encodeHeader, List.append_assoc, List.cons_append,
    List.singleton_append, List.nil_append, decodeHeader]
  rw [readU16_u16LE _ hlt]
  simp only [readU8, hbits1, hbits2, hbits3, hbits4, hbits5, hbits6, hbits7,
    hbits8, decodeFrameType_val, decodeVersion_val, boolVal_beq]
  rw [decodeAddr_encDst dst hdst]
  simp only []
  rw [decodeSrc_encSrc comp dst src hsrc hcomp]
  cases sec with
  | false =>
    cases aux with
    | none => simp
    | some a => simp at hsec
  | true =>
    cases aux with
    | none => simp at hsec
    | some a =>
      simp only [Bool.true_eq, if_true, if_pos]
      rw [decodeAux_encAux a hauxwf]

/-- Decoding encoded content consumes exactly the encoded bytes when the
content variant matches the frame type. -/
theorem decodeContent_encodeContent {B C : Type} (bc : BodyCodec B)
    (cc : BodyCodec C) (ft : FrameType) (ct : FrameContent B C)
    (hm : contentMatches ft ct) (rest : List Nat) :
    decodeContent bc cc ft (encodeContent bc cc ct ++ rest) =
      .ok (ct, rest) := by
  cases ft <;> cases ct <;>
    simp_all [contentMatches, decodeContent, encodeContent, bc.dec_enc,
      cc.dec_enc, List.drop_left]

/-! ## Theorems about the frame codec -/

/-- C7: decoding the explicit-footer encoding of a well-formed frame of
encoded length at most 127 yields the frame back and consumes exactly
the encoded length. -/
theorem C7_roundtrip {B C : Type} (bc : BodyCodec B) (cc : BodyCodec C)
    (f : Frame B C) (hwf : FrameWF f)
    (hlen : (tryWrite bc cc f ⟨.Explicit, none⟩).length ≤ 127) :
    tryRead bc cc (tryWrite bc cc f ⟨.Explicit, none⟩) .Explicit =
      .ok (f, (tryWrite bc cc f ⟨.Explicit, none⟩).length) := by
  obtain ⟨hd, ct, pl, f1, f2⟩ := f
  obtain ⟨hhd, hct, hpl, hf1, hf2⟩ := hwf
  simp only at hct hpl hf1 hf2
  simp only [tryWrite, tryRead, readHeaderContent, List.append_assoc]
  rw [decodeHeader_encodeHeader hd hhd]
  simp only []
  rw [decodeContent_encodeContent bc cc hd.frame_type ct hct]
  have hrl : (pl ++ [f1, f2]).length = pl.length + 2 := by simp
  have hnlt : ¬((pl ++ [f1, f2]).length < 2) := by omega
  have hdrop : (pl ++ [f1, f2]).drop ((pl ++ [f1, f2]).length - 2) =
      [f1, f2] := by
    rw [hrl]
    simp [List.drop_left]
  have htake : (pl ++ [f1, f2]).take ((pl ++ [f1, f2]).length - 2) = pl := by
    rw [hrl]
    simp [List.take_left]
  have e1 : (f1 + 256 * f2) % 256 = f1 := by omega
  have e2 : (f1 + 256 * f2) / 256 % 256 = f2 := by omega
  simp only [if_neg hnlt, hdrop, htake, e1, e2]

/-- Witness for C7 at a concrete well-formed data frame. -/
theorem C7_witness :
    tryRead unitCodec unitCodec
        (tryWrite unitCodec unitCodec frameC7 ⟨.Explicit, none⟩) .Explicit =
      .ok (frameC7,
        (tryWrite unitCodec unitCodec frameC7 ⟨.Explicit, none⟩).length) :=
  C7_roundtrip unitCodec unitCodec frameC7
    ⟨⟨by decide, ⟨by decide, by decide⟩, ⟨by decide, by decide⟩,
      fun hcontra => absurd hcontra (by decide), rfl, trivial⟩, trivial,
      by decide, by decide, by decide⟩ (by decide)

/-- C8: the two concrete encode vectors from the `mod.rs` test suite —
the version-2003 data frame encodes to exactly the expected 13 bytes,
and the PAN-compressed acknowledgement frame to exactly the expected
15 bytes. -/
theorem C8_encode_vectors :
    tryWrite unitCodec unitCodec frameC8Data ⟨.None, none⟩ =
        [0x01, 0x88, 0x01, 0x34, 0x12, 0x78, 0x56, 0x21, 0x43, 0xbc, 0x9a,
          0xde, 0xf0] ∧
      tryWrite unitCodec unitCodec frameC8Ack ⟨.None, none⟩ =
        [0x42, 0x8c, 0xff, 0x34, 0x12, 0x88, 0x77, 0x66, 0x55, 0x44, 0x33,
          0x22, 0x11, 0xbc, 0x9a] :=
  ⟨rfl, rfl⟩

/-- C9: `Frame::try_write` writes the same bytes (hence returns the same
length) under any two serialization contexts with the same footer mode:
the encode path never consults `security_ctx` and never invokes the
security transform. -/
theorem C9_write_ignores_security_ctx {B C : Type} (bc : BodyCodec B)
    (cc : BodyCodec C) (f : Frame B C) (c1 c2 : FrameSerDesContext)
    (hmode : c1.footer_mode = c2.footer_mode) :
    tryWrite bc cc f c1 = tryWrite bc cc f c2 := by
  simp only [tryWrite, hmode]

/-- Witness for C9: a secured frame written with a populated security
context and with no security context produces identical bytes. -/
theorem C9_witness :
    tryWrite unitCodec unitCodec (secFrame .MIC32)
        ⟨.Explicit, some (ctxAt 5)⟩ =
      tryWrite unitCodec unitCodec (secFrame .MIC32) ⟨.Explicit, none⟩ :=
  C9_write_ignores_security_ctx unitCodec unitCodec (secFrame .MIC32)
    ⟨.Explicit, some (ctxAt 5)⟩ ⟨.Explicit, none⟩ rfl

/-- C10: when fewer than 2 bytes remain after the header and content
have been decoded, `try_read` with `FooterMode::Explicit` hits the
underflowing `bytes.len() - offset - 2` subtraction (a panic under
checked arithmetic) instead of returning `NotEnoughBytes`, while
`FooterMode::None` decodes the same input successfully with the whole
remainder as payload and footer `[0, 0]`. -/
theorem C10_explicit_underflow_panics {B C : Type} (bc : BodyCodec B)
    (cc : BodyCodec C) (bytes : List Nat) (hc : Header × FrameContent B C)
    (rest : List Nat)
    (hhc : readHeaderContent bc cc bytes = .ok (hc, rest))
    (hshort : rest.length < 2) :
    tryRead bc cc bytes .Explicit = .panicked ∧
      tryRead bc cc bytes .None = .ok (⟨hc.1, hc.2, rest, (0, 0)⟩, bytes.length) := by
  obtain ⟨h, ct⟩ := hc
  refine ⟨?_, ?_⟩ <;> simp [tryRead, hhc, hshort]

/-- Witness for C10 on the concrete input `[1, 0, 42, 7]`, whose header
and content decode leaves the single byte `7`. -/
theorem C10_witness :
    tryRead unitCodec unitCodec [1, 0, 42, 7] .Explicit =
        (.panicked : ReadResult (Frame Unit Unit × Nat)) ∧
      tryRead unitCodec unitCodec [1, 0, 42, 7] .None =
        .ok (⟨hdrC10, .Data, [7], (0, 0)⟩, 4) :=
  C10_explicit_underflow_panics unitCodec unitCodec [1, 0, 42, 7]
    (hdrC10, .Data) [7] rfl (by decide)

end Ieee802154
